import Mathlib

/-!
Verification of the credential-lifecycle core of the vibekit MCP server:
the on-disk token store (`src/auth.ts`), the refresh operation
(`src/auth.ts`), the authenticated request client (`src/api.ts`) and the
device-authorization poll loop (`src/login.ts`), shallowly embedded as
executable Lean functions.  External nondeterminism (clock, HTTP responses)
is passed in explicitly as oracle arguments.
-/

namespace Vibekit

/-- User identity snapshot stored inside a credential record
(`TokenData.user` in `src/auth.ts`). -/
structure User where
  id : String
  email : String
  name : String
deriving Repr, DecidableEq

/-- The credential record persisted on disk (`TokenData` in `src/auth.ts`).
The source stores `expires_at` as an ISO-8601 string and converts with
`new Date(s).getTime()` / `new Date(ms).toISOString()`; that codec is a
bijection on representable instants, so the field is modelled by its
timestamp in milliseconds since the epoch. -/
structure TokenData where
  access_token : String
  refresh_token : String
  expires_at : Int
  user : User
deriving Repr, DecidableEq

/-- JavaScript `a || b` for a string `a`: the empty string is falsy. -/
def jsOrStr (a b : String) : String := if a = "" then b else a

/-- JavaScript `a || b` where `a` is a possibly-absent string
(`undefined`, or a string value). -/
def jsOrOpt (a : Option String) (b : String) : String :=
  match a with
  | none => b
  | some s => jsOrStr s b

/-- A JSON value as far as the credential store is concerned: `null`, a
value forming a complete credential record, or any other JSON value
(tracked only by its JavaScript truthiness). -/
inductive JsonVal where
  | jnull
  | record (t : TokenData)
  | other (truthy : Bool)
deriving Repr, DecidableEq

/-- Whether a JSON value forms a complete, valid credential record. -/
def JsonVal.isRecord : JsonVal → Bool
  | .record _ => true
  | _ => false

/-- Contents of the token file: empty text, malformed text
(`JSON.parse` throws on both), or text that parses to a JSON value. -/
inductive FileContent where
  | empty
  | invalidJson
  | json (v : JsonVal)
deriving Repr, DecidableEq

/-- `JSON.parse` applied to the file text: empty or malformed text throws
(modelled as `none`), otherwise the parsed value. -/
def parseFile : FileContent → Option JsonVal
  | .empty => none
  | .invalidJson => none
  | .json v => some v

/-- The on-disk store; `none` models a missing token file. -/
abbrev FsStore := Option FileContent

/-- `loadToken` of `src/auth.ts`: a missing file yields `null`; a parse
failure is caught and yields `null`; otherwise the parsed JSON value is
returned unvalidated.  A parsed JSON `null` is the very same runtime value
as the "absent" result, so it maps to `none` as well. -/
def loadToken (fs : FsStore) : Option JsonVal :=
  match fs with
  | none => none
  | some c =>
    match parseFile c with
    | none => none
    | some .jnull => none
    | some v => some v

/-- `saveToken` of `src/auth.ts`: serializes the record with
`JSON.stringify` and overwrites the file.  Stringifying a complete record
and parsing the result yields an equal record, so the written file parses
to exactly the given record. -/
def saveToken (t : TokenData) (_fs : FsStore) : FsStore :=
  some (.json (.record t))

/-- Outcome of one call to the refresh endpoint as observed by
`refreshAccessToken`: the fetch may throw, return a non-2xx response,
return 2xx with a body that fails to parse or to yield the contract
fields, or return 2xx with `access_token` and `expires_in`. -/
inductive RefreshResponse where
  | netError
  | notOk
  | okMalformed
  | ok (access_token : String) (expires_in : Int)
deriving Repr, DecidableEq

/-- Whether the refresh endpoint answered with a usable success payload. -/
def RefreshResponse.isOk : RefreshResponse → Bool
  | .ok _ _ => true
  | _ => false

/-- The client-visible store: absent, or a valid persisted record.  This is
the image of `loadToken` on stores holding a serialized record or no file,
the domain over which the request-client claims quantify. -/
abbrev RecStore := Option TokenData

/-- `refreshAccessToken` of `src/auth.ts`: POST the refresh token; any
throw or non-ok response yields `null` and leaves the store alone; on
success build the updated record (spread of the old one, replacing only
`access_token` and `expires_at = now + expires_in * 1000`), persist it via
`saveToken`, and return it. -/
def refreshAccessToken (resp : RefreshResponse) (now : Int) (token : TokenData)
    (st : RecStore) : Option TokenData × RecStore :=
  match resp with
  | .netError => (none, st)
  | .notOk => (none, st)
  | .okMalformed => (none, st)
  | .ok a e =>
    let updated : TokenData :=
      { token with access_token := a, expires_at := now + e * 1000 }
    (some updated, some updated)

/-- `getApiBaseUrl` of `src/auth.ts`:
`process.env.VIBEKIT_API_URL || "https://vibecoderskit.com"`. -/
def getApiBaseUrl (env : Option String) : String :=
  jsOrOpt env "https://vibecoderskit.com"

/-- `API_BASE_URL` of `src/login.ts`:
`process.env.VIBEKIT_API_URL || "https://vibecoderskit.ai"`. -/
def API_BASE_URL (env : Option String) : String :=
  jsOrOpt env "https://vibecoderskit.ai"

/-- Header lists model JS object literals: a later binding of a key
overwrites an earlier one, so the effective value of a key is its last
occurrence in the list. -/
def getHeader (hs : List (String × String)) (k : String) : Option String :=
  (hs.reverse.find? (fun p => p.1 = k)).map (fun p => p.2)

/-- The header object built for both fetches in `apiRequest`
(`src/api.ts`): the JSON content-type and bearer-token defaults first, then
the caller's `options.headers` spread over them. -/
def buildHeaders (accessToken : String) (callerHeaders : List (String × String)) :
    List (String × String) :=
  ("Content-Type", "application/json") ::
    ("Authorization", "Bearer " ++ accessToken) :: callerHeaders

/-- An HTTP response from the resource endpoint as `apiRequest` observes
it: the status, the `error` field of the parsed body when the body parses
to an object carrying one (`.catch` turns a parse failure into an object
with no such field, modelled `none`), and the parsed body itself,
abstracted to a string, for success paths. -/
structure HttpResp where
  status : Nat
  errField : Option String
  payload : String
deriving Repr, DecidableEq

/-- JS `response.ok`: status in the range 200–299. -/
def isOkStatus (s : Nat) : Bool := 200 ≤ s && s ≤ 299

/-- The result of one `apiRequest` call as seen by its caller. -/
inductive ApiOutcome where
  | ok (payload : String)
  | okEmpty
  | errUnauthenticated
  | errAuthExpired
  | errApi (msg : String)
deriving Repr, DecidableEq

/-- The message `apiRequest` throws when no credential is on disk. -/
def notAuthenticatedMsg : String :=
  "Not authenticated. Run `npx vibekit-mcp-server login` to connect your account."

/-- The message `apiRequest` throws when the credential is rejected and the
reactive refresh fails. -/
def authExpiredMsg : String :=
  "Authentication expired. Run `npx vibekit-mcp-server login` to reconnect."

/-- The message carried by a thrown `apiRequest` error (empty string for
the non-throwing outcomes). -/
def ApiOutcome.message : ApiOutcome → String
  | .errUnauthenticated => notAuthenticatedMsg
  | .errAuthExpired => authExpiredMsg
  | .errApi m => m
  | _ => ""

/-- The error message for a non-ok response in `apiRequest`:
`error.error || "API error: <status>"`, where `error` is the parsed body or
an empty object when parsing failed. -/
def respErrMsg (r : HttpResp) : String :=
  jsOrOpt r.errField ("API error: " ++ toString r.status)

/-- Completion of a response in `apiRequest` once past the 401 check: non-ok
throws the server-reported or generic error, 204 returns the empty object,
any other 2xx returns the parsed body. -/
def finishResponse (r : HttpResp) : ApiOutcome :=
  if ¬ isOkStatus r.status then .errApi (respErrMsg r)
  else if r.status = 204 then .okEmpty
  else .ok r.payload

/-- External nondeterminism for one `apiRequest` call: the clock, and the
outcome of the n-th refresh-endpoint call and of the n-th fetch of the
resource endpoint (0-based, in call order). -/
structure Env where
  now : Int
  refreshResp : Nat → RefreshResponse
  fetchResp : Nat → HttpResp

/-- Everything observable about one `apiRequest` call: the outcome, the
store afterwards, the number of refresh attempts in the proactive and in
the reactive phase, the number of fetches of the resource endpoint, and the
header object passed to each fetch, in call order. -/
structure ApiResult where
  outcome : ApiOutcome
  store : RecStore
  proactiveRefreshes : Nat
  reactiveRefreshes : Nat
  fetchCalls : Nat
  headersUsed : List (List (String × String))
deriving Repr, DecidableEq

/-- Lines 18–25 of `src/api.ts`: when the token is within the 60s buffer
(`expiresAt.getTime() - Date.now() < 60_000`) attempt one proactive
refresh, adopting the refreshed record on success and keeping the original
token on failure.  Returns the token to use, the store afterwards, and the
number of refresh attempts made (0 or 1). -/
def proactivePhase (env : Env) (token0 : TokenData) : TokenData × RecStore × Nat :=
  if token0.expires_at - env.now < 60000 then
    match refreshAccessToken (env.refreshResp 0) env.now token0 (some token0) with
    | (some r, st1) => (r, st1, 1)
    | (none, st1) => (token0, st1, 1)
  else (token0, some token0, 0)

/-- `apiRequest` of `src/api.ts`, over stores that are absent or hold a
valid record (the image of `loadToken` on well-formed stores, which is the
domain the request-client claims quantify over).  Mirrors the source: load
the token and fail unauthenticated when absent; proactively refresh within
the 60s buffer; issue the fetch with default headers under the caller's;
on a 401 attempt exactly one more refresh and either fail expired (no
retry) or retry exactly once with the refreshed token, that retry's
response being final; otherwise finish on the primary response. -/
def apiRequest (env : Env) (callerHeaders : List (String × String))
    (st : RecStore) : ApiResult :=
  match st with
  | none =>
    { outcome := .errUnauthenticated, store := none, proactiveRefreshes := 0,
      reactiveRefreshes := 0, fetchCalls := 0, headersUsed := [] }
  | some token0 =>
    match proactivePhase env token0 with
    | (token1, st1, pCount) =>
      let hdrs1 := buildHeaders token1.access_token callerHeaders
      let resp1 := env.fetchResp 0
      if resp1.status = 401 then
        match refreshAccessToken (env.refreshResp pCount) env.now token1 st1 with
        | (none, st2) =>
          { outcome := .errAuthExpired, store := st2, proactiveRefreshes := pCount,
            reactiveRefreshes := 1, fetchCalls := 1, headersUsed := [hdrs1] }
        | (some r2, st2) =>
          let hdrs2 := buildHeaders r2.access_token callerHeaders
          { outcome := finishResponse (env.fetchResp 1), store := st2,
            proactiveRefreshes := pCount, reactiveRefreshes := 1,
            fetchCalls := 2, headersUsed := [hdrs1, hdrs2] }
      else
        { outcome := finishResponse resp1, store := st1,
          proactiveRefreshes := pCount, reactiveRefreshes := 0,
          fetchCalls := 1, headersUsed := [hdrs1] }

/-- The success payload of the device-flow token endpoint
(`TokenResponse` in `src/login.ts`). -/
structure TokenResponse where
  access_token : String
  refresh_token : String
  token_type : String
  expires_in : Int
  user : User
deriving Repr, DecidableEq

/-- One token-endpoint response in the device-flow poll loop: a payload
containing an access token, or an error payload with an optional
description. -/
inductive PollMsg where
  | success (t : TokenResponse)
  | err (code : String) (description : Option String)
deriving Repr, DecidableEq

/-- Terminal result of the poll loop.  `ranOut` marks exhaustion of the
finite response script: the source loop would simply keep polling. -/
inductive PollResult where
  | ok (t : TokenResponse)
  | timedOut
  | failed (msg : String)
  | ranOut
deriving Repr, DecidableEq

/-- `pollForToken` of `src/login.ts`, run against a finite script of
token-endpoint responses.  Returns the terminal result together with the
list of sleep intervals, one entry per iteration in order (the loop sleeps
for the current interval before each poll).  A payload with an access
token returns it; `authorization_pending` keeps polling at the same
interval; `slow_down` adds 5 seconds to the interval and keeps polling;
`expired_token` throws the timeout error; any other code throws
`error_description || error || "Authentication failed"`. -/
def pollForToken (interval : Int) : List PollMsg → PollResult × List Int
  | [] => (.ranOut, [])
  | msg :: rest =>
    match msg with
    | .success t => (.ok t, [interval])
    | .err code desc =>
      if code = "authorization_pending" then
        let r := pollForToken interval rest
        (r.1, interval :: r.2)
      else if code = "slow_down" then
        let r := pollForToken (interval + 5) rest
        (r.1, interval :: r.2)
      else if code = "expired_token" then
        (.timedOut, [interval])
      else
        (.failed (jsOrOpt desc (jsOrStr code "Authentication failed")), [interval])

/-- The record built by `saveToken` of `src/login.ts` from a successful
token payload: `expires_at = now + expires_in * 1000`, user copied. -/
def recordOfTokenResponse (now : Int) (t : TokenResponse) : TokenData :=
  { access_token := t.access_token, refresh_token := t.refresh_token,
    expires_at := now + t.expires_in * 1000, user := t.user }

/-- Steps 3–4 of `main` in `src/login.ts`: poll for the token, then persist
a credential record exactly when the poll succeeded; any terminal error
propagates with the store untouched. -/
def loginFlow (interval : Int) (msgs : List PollMsg) (now : Int)
    (fs : FsStore) : PollResult × FsStore :=
  match pollForToken interval msgs with
  | (.ok t, _) => (.ok t, saveToken (recordOfTokenResponse now t) fs)
  | (r, _) => (r, fs)

/-- A concrete identity used in concrete evaluations. -/
def demoUser : User := ⟨"u1", "u1@example.test", "User One"⟩

/-- A concrete credential record expiring 1000 seconds after epoch 0. -/
def demoToken : TokenData := ⟨"A1", "R1", 1000000, demoUser⟩

/-- A concrete credential record already expired at clock reading 0. -/
def demoExpiredToken : TokenData := ⟨"A1", "R1", 0, demoUser⟩

/-- A concrete credential record expiring exactly 60 seconds after clock
reading 0. -/
def tok60 : TokenData := ⟨"A1", "R1", 60000, demoUser⟩

/-- Environment whose clock reads 0, whose refresh endpoint always
rejects, and whose resource endpoint always returns 200. -/
def envAllOk : Env := ⟨0, fun _ => .notOk, fun _ => ⟨200, none, "body"⟩⟩

/-- Environment whose clock reads 0, whose first refresh call succeeds
with a new access token, whose later refresh calls are rejected, and whose
resource endpoint always returns 401. -/
def envRefreshThenFail : Env :=
  ⟨0, fun n => if n = 0 then .ok "A2" 3600 else .notOk,
    fun _ => ⟨401, none, ""⟩⟩

/-- Environment whose clock reads 0, whose refresh endpoint always
rejects, and whose resource endpoint always returns 401. -/
def envAlways401 : Env := ⟨0, fun _ => .notOk, fun _ => ⟨401, none, ""⟩⟩

/-- Environment whose clock reads 0, whose refresh endpoint always
succeeds with a fixed new token, whose resource endpoint returns 401 on
the first fetch and 200 on the retry. -/
def env401ThenOk : Env :=
  ⟨0, fun _ => .ok "A2" 3600,
    fun n => if n = 0 then ⟨401, none, ""⟩ else ⟨200, none, "retried"⟩⟩

/-- A concrete successful token payload used in concrete evaluations. -/
def demoTokenResponse : TokenResponse := ⟨"A1", "R1", "bearer", 3600, demoUser⟩

/- ======================  Theorems  ====================== -/

/-- Helper: a refresh call whose response is not a usable success returns
absent and leaves the store untouched. -/
theorem refreshAccessToken_fail (resp : RefreshResponse) (now : Int)
    (token : TokenData) (st : RecStore) (h : resp.isOk = false) :
    refreshAccessToken resp now token st = (none, st) := by
  cases resp <;> simp_all [refreshAccessToken, RefreshResponse.isOk]

/-- Helper: unfolding of `apiRequest` on a present record, once the
proactive phase has been destructured. -/
theorem apiRequest_some (env : Env) (opts : List (String × String))
    (t0 t1 : TokenData) (st1 : RecStore) (p : Nat)
    (hp : proactivePhase env t0 = (t1, st1, p)) :
    apiRequest env opts (some t0) =
      if (env.fetchResp 0).status = 401 then
        match refreshAccessToken (env.refreshResp p) env.now t1 st1 with
        | (none, st2) =>
          { outcome := .errAuthExpired, store := st2, proactiveRefreshes := p,
            reactiveRefreshes := 1, fetchCalls := 1,
            headersUsed := [buildHeaders t1.access_token opts] }
        | (some r2, st2) =>
          { outcome := finishResponse (env.fetchResp 1), store := st2,
            proactiveRefreshes := p, reactiveRefreshes := 1, fetchCalls := 2,
            headersUsed := [buildHeaders t1.access_token opts,
              buildHeaders r2.access_token opts] }
      else
        { outcome := finishResponse (env.fetchResp 0), store := st1,
          proactiveRefreshes := p, reactiveRefreshes := 0, fetchCalls := 1,
          headersUsed := [buildHeaders t1.access_token opts] } := by
  unfold apiRequest
  dsimp only
  rw [hp]

/-- Helper: the number of proactive refresh attempts recorded by
`apiRequest` is the one computed by the proactive phase. -/
theorem apiRequest_proactive_count (env : Env) (opts : List (String × String))
    (t0 : TokenData) :
    (apiRequest env opts (some t0)).proactiveRefreshes =
      (proactivePhase env t0).2.2 := by
  rcases hp : proactivePhase env t0 with ⟨t1, st1, p⟩
  rw [apiRequest_some env opts t0 t1 st1 p hp]
  split
  · rcases hr : refreshAccessToken (env.refreshResp p) env.now t1 st1 with ⟨o, st2⟩
    cases o <;> rfl
  · rfl

/-- Helper: the proactive phase attempts one refresh exactly when the
record is strictly within the 60-second buffer. -/
theorem proactivePhase_count (env : Env) (t0 : TokenData) :
    (proactivePhase env t0).2.2 =
      if t0.expires_at - env.now < 60000 then 1 else 0 := by
  unfold proactivePhase
  split
  · rcases refreshAccessToken (env.refreshResp 0) env.now t0 (some t0) with ⟨o, st1⟩
    cases o <;> rfl
  · rfl

/-- Helper: when the record is outside the buffer, or the proactive
refresh is rejected, the proactive phase keeps the original token and
leaves the store holding it. -/
theorem proactivePhase_store_unchanged (env : Env) (t0 : TokenData)
    (h : 60000 ≤ t0.expires_at - env.now ∨ (env.refreshResp 0).isOk = false) :
    (proactivePhase env t0).1 = t0 ∧ (proactivePhase env t0).2.1 = some t0 := by
  unfold proactivePhase
  rcases h with h | h
  · rw [if_neg (not_lt.mpr h)]
    exact ⟨rfl, rfl⟩
  · split
    · rw [refreshAccessToken_fail (env.refreshResp 0) env.now t0 (some t0) h]
      exact ⟨rfl, rfl⟩
    · exact ⟨rfl, rfl⟩

/-- Claim C2, counterexample: a record expiring in exactly 60 seconds does
NOT trigger a proactive refresh — the source test is the strict
comparison `expiresAt.getTime() - Date.now() < 60_000`, so at exactly the
60-second boundary zero refresh attempts happen, where the claim demands
one. -/
theorem proactive_at_exactly_60s_is_zero :
    tok60.expires_at - envAllOk.now = 60000 ∧
      (apiRequest envAllOk [] (some tok60)).proactiveRefreshes = 0 := by
  decide

/-- Claim C2 (amended): `apiRequest` performs zero proactive refresh
attempts when `expires_at` is 60 seconds or more in the future (including
exactly 60 seconds), and exactly one proactive refresh attempt before the
primary call when `expires_at` is strictly within 60 seconds of the
current time. -/
theorem apiRequest_proactive_refresh_count (env : Env)
    (opts : List (String × String)) (t0 : TokenData) :
    (60000 ≤ t0.expires_at - env.now →
      (apiRequest env opts (some t0)).proactiveRefreshes = 0) ∧
    (t0.expires_at - env.now < 60000 →
      (apiRequest env opts (some t0)).proactiveRefreshes = 1) := by
  constructor
  · intro h
    rw [apiRequest_proactive_count, proactivePhase_count,
      if_neg (not_lt.mpr h)]
  · intro h
    rw [apiRequest_proactive_count, proactivePhase_count, if_pos h]

/-- Witness for C2 (amended): a record 1000 seconds from expiry triggers
no proactive refresh; an already-expired record triggers exactly one. -/
theorem apiRequest_proactive_refresh_count_witness :
    (apiRequest envAllOk [] (some demoToken)).proactiveRefreshes = 0 ∧
      (apiRequest envAllOk [] (some demoExpiredToken)).proactiveRefreshes = 1 :=
  ⟨(apiRequest_proactive_refresh_count envAllOk [] demoToken).1 (by decide),
    (apiRequest_proactive_refresh_count envAllOk [] demoExpiredToken).2 (by decide)⟩

/-- Claim C1, counterexample: when the proactive refresh succeeds (and
persists a new record), the primary call still returns 401, and the
reactive refresh then fails, `apiRequest` fails with the
authentication-expired error but the on-disk record is NOT unchanged from
before the call — the proactive refresh already rewrote it. -/
theorem apiRequest_401_store_changed :
    (apiRequest envRefreshThenFail [] (some demoExpiredToken)).outcome =
        .errAuthExpired ∧
      (apiRequest envRefreshThenFail [] (some demoExpiredToken)).store ≠
        some demoExpiredToken := by
  decide

/-- Claim C1 (amended): whenever the primary call returns 401, exactly one
reactive refresh attempt occurs; if it fails, the call fails with the
distinct authentication-expired error naming the login action, with zero
retries, and the record is unchanged from before the call provided the
proactive phase wrote nothing (no proactive refresh happened, or it was
rejected — in particular whenever the refresh endpoint always fails); if
the reactive refresh succeeds, the original call is retried exactly once
with the new access token and that retry's response is final. -/
theorem apiRequest_401_semantics (env : Env) (opts : List (String × String))
    (t0 : TokenData) (h401 : (env.fetchResp 0).status = 401) :
    (apiRequest env opts (some t0)).reactiveRefreshes = 1 ∧
    ((env.refreshResp (proactivePhase env t0).2.2).isOk = false →
      (apiRequest env opts (some t0)).outcome = .errAuthExpired ∧
      (apiRequest env opts (some t0)).fetchCalls = 1 ∧
      authExpiredMsg ≠ notAuthenticatedMsg ∧
      "login".data <:+: authExpiredMsg.data ∧
      ((60000 ≤ t0.expires_at - env.now ∨ (env.refreshResp 0).isOk = false) →
        (apiRequest env opts (some t0)).store = some t0)) ∧
    (∀ a e, env.refreshResp (proactivePhase env t0).2.2 = .ok a e →
      (apiRequest env opts (some t0)).fetchCalls = 2 ∧
      (apiRequest env opts (some t0)).outcome = finishResponse (env.fetchResp 1) ∧
      (apiRequest env opts (some t0)).headersUsed =
        [buildHeaders (proactivePhase env t0).1.access_token opts,
          buildHeaders a opts]) := by
  rcases hp : proactivePhase env t0 with ⟨t1, st1, p⟩
  simp only [hp]
  rw [apiRequest_some env opts t0 t1 st1 p hp, if_pos h401]
  refine ⟨?_, ?_, ?_⟩
  · rcases hr : refreshAccessToken (env.refreshResp p) env.now t1 st1 with ⟨o, st2⟩
    cases o <;> rfl
  · intro hfail
    rw [refreshAccessToken_fail (env.refreshResp p) env.now t1 st1 hfail]
    refine ⟨rfl, rfl, by decide, by decide, ?_⟩
    intro hcond
    have h2 := (proactivePhase_store_unchanged env t0 hcond).2
    rw [hp] at h2
    exact h2
  · intro a e hok
    rw [hok]
    simp [refreshAccessToken]

/-- Witness for C1 (amended): concrete 401 scenarios — with a failing
refresh endpoint, one reactive refresh, the expired error, one fetch, and
an unchanged store; with a succeeding refresh endpoint, exactly two
fetches. -/
theorem apiRequest_401_semantics_witness :
    (apiRequest envAlways401 [] (some demoToken)).reactiveRefreshes = 1 ∧
      (apiRequest envAlways401 [] (some demoToken)).outcome = .errAuthExpired ∧
      (apiRequest envAlways401 [] (some demoToken)).store = some demoToken ∧
      (apiRequest env401ThenOk [] (some demoToken)).fetchCalls = 2 := by
  have h1 := apiRequest_401_semantics envAlways401 [] demoToken (by decide)
  have h2 := apiRequest_401_semantics env401ThenOk [] demoToken (by decide)
  exact ⟨h1.1, (h1.2.1 (by decide)).1,
    (h1.2.1 (by decide)).2.2.2.2 (Or.inl (by decide)),
    (h2.2.2 "A2" 3600 (by decide)).1⟩

/-- Claim C7: the credential store's load operation never raises to its
caller (it is a total function); on a missing file, an empty file, and a
file containing invalid JSON it returns absent in all three cases. -/
theorem loadToken_absent_on_missing_empty_invalid :
    loadToken none = none ∧ loadToken (some .empty) = none ∧
      loadToken (some .invalidJson) = none :=
  ⟨rfl, rfl, rfl⟩

/-- Claim C8: saving any valid credential record via the store and then
immediately loading returns a record deep-equal to the one saved. -/
theorem saveToken_loadToken_roundtrip (t : TokenData) (fs : FsStore) :
    loadToken (saveToken t fs) = some (.record t) := rfl

/-- Claim C4, counterexample: a file containing valid JSON that does not
form a credential record (for instance the text of a non-empty object with
unrelated fields, a truthy JSON value) is not treated as absent —
`loadToken` returns the parsed value unvalidated, and that value is not a
complete credential record. -/
theorem loadToken_returns_nonRecord :
    loadToken (some (.json (.other true))) = some (.other true) ∧
      (JsonVal.other true).isRecord = false :=
  ⟨rfl, rfl⟩

/-- Claim C4 (amended): `loadToken` yields absent for a missing file, an
empty file, a file that fails to parse as JSON, and a file parsing to JSON
null; a file holding a serialized record loads as exactly that record; but
any other JSON value is returned as-is, without validation against the
credential-record shape. -/
theorem loadToken_characterization :
    loadToken none = none ∧ loadToken (some .empty) = none ∧
      loadToken (some .invalidJson) = none ∧
      loadToken (some (.json .jnull)) = none ∧
      (∀ t : TokenData, loadToken (some (.json (.record t))) = some (.record t)) ∧
      (∀ b : Bool, loadToken (some (.json (.other b))) = some (.other b)) :=
  ⟨rfl, rfl, rfl, rfl, fun _ => rfl, fun _ => rfl⟩

/-- Claim C3: the refresh operation never raises (it is a total function);
on any network failure, non-2xx response, or unusable success body it
returns absent and leaves the stored record untouched; on a usable 2xx
response it returns and persists the record obtained from the old one by
changing only `access_token` and `expires_at`, with
`expires_at = now + expires_in * 1000` and the existing `refresh_token`
and `user` preserved. -/
theorem refreshAccessToken_spec (resp : RefreshResponse) (now : Int)
    (token : TokenData) (st : RecStore) :
    (resp.isOk = false → refreshAccessToken resp now token st = (none, st)) ∧
    (∀ a e, resp = .ok a e →
      refreshAccessToken resp now token st =
        (some { token with access_token := a, expires_at := now + e * 1000 },
          some { token with access_token := a, expires_at := now + e * 1000 }) ∧
      ({ token with access_token := a, expires_at := now + e * 1000 } :
          TokenData).refresh_token = token.refresh_token ∧
      ({ token with access_token := a, expires_at := now + e * 1000 } :
          TokenData).user = token.user) := by
  cases resp <;>
    simp [refreshAccessToken, RefreshResponse.isOk]

/-- Witness for C3: a rejected refresh at a concrete record returns absent
and leaves the concrete store untouched, and a successful one persists the
updated record. -/
theorem refreshAccessToken_spec_witness :
    refreshAccessToken .notOk 0 demoToken (some demoToken) =
      (none, some demoToken) ∧
    refreshAccessToken (.ok "A2" 3600) 0 demoToken (some demoToken) =
      (some { demoToken with access_token := "A2", expires_at := 3600000 },
        some { demoToken with access_token := "A2", expires_at := 3600000 }) := by
  refine ⟨(refreshAccessToken_spec .notOk 0 demoToken (some demoToken)).1 rfl, ?_⟩
  have h := ((refreshAccessToken_spec (.ok "A2" 3600) 0 demoToken
    (some demoToken)).2 "A2" 3600 rfl).1
  simpa using h

/-- Claim C9: with the environment variable unset, the device-flow base
URL and the request-client base URL disagree — `src/login.ts` defaults to
`https://vibecoderskit.ai` while `src/auth.ts` defaults to
`https://vibecoderskit.com` — so the login endpoints and the
refresh/resource endpoints are not addressed against one and the same
default host; when the variable is set to a non-empty value both agree. -/
theorem baseUrl_defaults_disagree :
    API_BASE_URL none = "https://vibecoderskit.ai" ∧
      getApiBaseUrl none = "https://vibecoderskit.com" ∧
      API_BASE_URL none ≠ getApiBaseUrl none ∧
      (∀ s : String, s ≠ "" → API_BASE_URL (some s) = getApiBaseUrl (some s)) := by
  refine ⟨rfl, rfl, by decide, ?_⟩
  intro s hs
  simp [API_BASE_URL, getApiBaseUrl, jsOrOpt, jsOrStr, hs]

/-- Witness for C9: at the concrete override value both base URLs agree. -/
theorem baseUrl_defaults_disagree_witness :
    API_BASE_URL (some "https://api.example.test") =
      getApiBaseUrl (some "https://api.example.test") :=
  baseUrl_defaults_disagree.2.2.2 "https://api.example.test" (by decide)

/-- Claim C6: with no stored credential, `apiRequest` fails immediately
with the unauthenticated error naming the login action, performing no
refresh attempt and no HTTP call and leaving the store unchanged. -/
theorem apiRequest_unauthenticated (env : Env)
    (opts : List (String × String)) :
    apiRequest env opts none =
      { outcome := .errUnauthenticated, store := none, proactiveRefreshes := 0,
        reactiveRefreshes := 0, fetchCalls := 0, headersUsed := [] } ∧
      ApiOutcome.message .errUnauthenticated = notAuthenticatedMsg ∧
      notAuthenticatedMsg ≠ authExpiredMsg ∧
      "login".data <:+: notAuthenticatedMsg.data :=
  ⟨rfl, rfl, by decide, by decide⟩

/-- Helper: layering the caller's headers over the defaults preserves the
caller's effective value for any key the caller supplies (the last
occurrence of a key wins, as with JS object spread). -/
theorem getHeader_layered (tok : String) (opts : List (String × String))
    (k v : String) (h : getHeader opts k = some v) :
    getHeader (buildHeaders tok opts) k = some v := by
  unfold getHeader at h ⊢
  unfold buildHeaders
  rcases hfind : opts.reverse.find? (fun p => p.1 = k) with _ | pr
  · rw [hfind] at h
    simp at h
  · rw [hfind] at h
    simp at h
    simp [List.find?_append, hfind, h]

/-- Helper: every header object `apiRequest` passes to a fetch is the
defaults for some access token with the caller's headers layered after. -/
theorem apiRequest_headers_shape (env : Env) (opts : List (String × String))
    (st : RecStore) :
    ∀ hs ∈ (apiRequest env opts st).headersUsed,
      ∃ tok : String, hs = buildHeaders tok opts := by
  rcases st with _ | t0
  · intro hs h
    simp [apiRequest] at h
  · rcases hp : proactivePhase env t0 with ⟨t1, st1, p⟩
    rw [apiRequest_some env opts t0 t1 st1 p hp]
    split
    · rcases hr : refreshAccessToken (env.refreshResp p) env.now t1 st1 with ⟨o, st2⟩
      rcases o with _ | r2 <;> intro hs h <;> simp at h
      · exact ⟨t1.access_token, h⟩
      · rcases h with h | h
        · exact ⟨t1.access_token, h⟩
        · exact ⟨r2.access_token, h⟩
    · intro hs h
      simp at h
      exact ⟨t1.access_token, h⟩

/-- Claim C10: in `apiRequest`, caller-supplied headers are layered after
the defaults, so a caller-provided `Authorization` or `Content-Type`
header replaces the client's bearer-token authorization header or JSON
content-type in every HTTP call the request makes — primary and
post-refresh retry alike. -/
theorem apiRequest_caller_headers_override (env : Env)
    (opts : List (String × String)) (st : RecStore) :
    ∀ hs ∈ (apiRequest env opts st).headersUsed,
      (∃ tok : String, hs = buildHeaders tok opts) ∧
      (∀ v, getHeader opts "Authorization" = some v →
        getHeader hs "Authorization" = some v) ∧
      (∀ v, getHeader opts "Content-Type" = some v →
        getHeader hs "Content-Type" = some v) := by
  intro hs h
  rcases apiRequest_headers_shape env opts st hs h with ⟨tok, rfl⟩
  exact ⟨⟨tok, rfl⟩, fun v hv => getHeader_layered tok opts _ v hv,
    fun v hv => getHeader_layered tok opts _ v hv⟩

/-- Witness for C10: with a caller-supplied authorization header, the
header object of the concrete primary call resolves `Authorization` to the
caller's value, not the client's bearer token. -/
theorem apiRequest_caller_headers_override_witness :
    (apiRequest envAllOk [("Authorization", "Bearer custom")]
        (some demoToken)).headersUsed =
      [buildHeaders demoToken.access_token [("Authorization", "Bearer custom")]] ∧
    getHeader (buildHeaders demoToken.access_token
      [("Authorization", "Bearer custom")]) "Authorization" =
        some "Bearer custom" := by
  refine ⟨by decide, ?_⟩
  exact ((apiRequest_caller_headers_override envAllOk
      [("Authorization", "Bearer custom")] (some demoToken))
      (buildHeaders demoToken.access_token [("Authorization", "Bearer custom")])
      (by decide)).2.1 "Bearer custom" (by decide)

/-- Claim C5: each token-endpoint response determines the next step of the
device-flow poll loop exactly: an access-token payload terminates the loop
successfully returning that payload; `authorization_pending` continues
polling at the unchanged interval; `slow_down` adds 5 seconds to the poll
interval and continues; `expired_token` terminates with the distinct
authorization-timed-out error; any other error terminates with the
server's `error_description` when present (non-empty), else its error
code; and the login flow writes no credential record on any terminal
error. -/
theorem pollForToken_spec (interval : Int) (rest : List PollMsg)
    (t : TokenResponse) (code : String) (desc : Option String) :
    pollForToken interval (.success t :: rest) = (.ok t, [interval]) ∧
    pollForToken interval (.err "authorization_pending" desc :: rest) =
      ((pollForToken interval rest).1,
        interval :: (pollForToken interval rest).2) ∧
    pollForToken interval (.err "slow_down" desc :: rest) =
      ((pollForToken (interval + 5) rest).1,
        interval :: (pollForToken (interval + 5) rest).2) ∧
    pollForToken interval (.err "expired_token" desc :: rest) =
      (.timedOut, [interval]) ∧
    (code ≠ "authorization_pending" → code ≠ "slow_down" →
      code ≠ "expired_token" →
      (∀ d, desc = some d → d ≠ "" →
        pollForToken interval (.err code desc :: rest) =
          (.failed d, [interval])) ∧
      (desc = none → code ≠ "" →
        pollForToken interval (.err code desc :: rest) =
          (.failed code, [interval]))) ∧
    (∀ now fs msgs, (∀ u, (pollForToken interval msgs).1 ≠ .ok u) →
      (loginFlow interval msgs now fs).2 = fs) := by
  refine ⟨rfl, ?_, ?_, ?_, ?_, ?_⟩
  · simp [pollForToken]
  · simp [pollForToken]
  · simp [pollForToken]
  · intro h1 h2 h3
    constructor
    · intro d hd hne
      subst hd
      simp [pollForToken, h1, h2, h3, jsOrOpt, jsOrStr, hne]
    · intro hd hne
      subst hd
      simp [pollForToken, h1, h2, h3, jsOrOpt, jsOrStr, hne]
  · intro now fs msgs hterm
    unfold loginFlow
    rcases hpoll : pollForToken interval msgs with ⟨r, is⟩
    have hr : ∀ u, r ≠ .ok u := by
      intro u
      have := hterm u
      rw [hpoll] at this
      exact this
    cases r with
    | ok u => exact absurd rfl (hr u)
    | timedOut => rfl
    | failed m => rfl
    | ranOut => rfl

/-- Witness for C5: a concrete denied authorization terminates with the
server's description, and a concrete timed-out flow leaves the store
untouched. -/
theorem pollForToken_spec_witness :
    pollForToken 5 [.err "access_denied" (some "denied by user")] =
      (.failed "denied by user", [5]) ∧
    (loginFlow 5 [.err "expired_token" none] 0 none).2 = none := by
  have h := pollForToken_spec 5 [] demoTokenResponse "access_denied"
    (some "denied by user")
  refine ⟨?_, ?_⟩
  · exact (h.2.2.2.2.1 (by decide) (by decide) (by decide)).1
      "denied by user" rfl (by decide)
  · refine h.2.2.2.2.2 0 none [.err "expired_token" none] ?_
    intro u hu
    have hx : (pollForToken 5 [.err "expired_token" none]).1 = .timedOut := by
      decide
    rw [hx] at hu
    exact PollResult.noConfusion hu

end Vibekit
